import Mathlib

/-!
Shallow embedding of `src/api/simple-rcv.js` (Vercel serverless endpoint that
syncs SII invoices via SimpleAPI into a Supabase datastore).

The datastore is modelled as explicit lists of rows.  Fallible external
behaviour (Supabase insert/update results, exceptions thrown while a document
is processed, the HTTP outcome of the SimpleAPI call, the UF-rate lookup) is
supplied by the environment as explicit data, so that every control-flow path
of the JavaScript source is represented.  Numbers are rationals (JS numbers on
the values this endpoint handles behave as exact arithmetic; `Math.round` is
round-half-up, that is Mathlib `round`).
-/

namespace SimpleRCV

/-- A remote document as returned by SimpleAPI (element of `detalleVentas` /
`detalleCompras`).  Optional fields model JS `null`/`undefined`. -/
structure Doc where
  folio : Nat
  razonSocial : Option String
  rutCliente : Option String
  rutProveedor : Option String
  fechaEmision : Option String
  montoTotal : ℚ
  estado : Option String
  tipoDTE : Nat
  deriving Repr, DecidableEq

/-- Behaviour of the datastore / runtime while one document is processed:
every call succeeds (`ok`); the insert resolves with a non-null `error`
object carrying `msg` (`insertErr`); the update resolves with a non-null
`error` object (`updateErr`, whose result the source discards); or an
exception with message `msg` is thrown inside the `try` block before any
row is written, e.g. by the field mapping or a rejected awaited call
(`raise`). -/
inductive DbEvent where
  | ok
  | insertErr (msg : String)
  | updateErr (msg : String)
  | raise (msg : String)
  deriving Repr, DecidableEq

/-- A row of the `facturas_emitidas` table (`id` is the datastore primary
key selected by the lookup; the update targets the row with this id). -/
structure EmitidaRow where
  id : Nat
  numero_folio : Nat
  cliente : String
  rut_cliente : Option String
  fecha_emision : Option String
  monto_clp : ℚ
  monto_uf : ℚ
  estado : String
  origen : String
  tipo_documento : Nat
  actualizado_sii : String
  deriving Repr, DecidableEq

/-- A row of the `facturas_recibidas` table. -/
structure RecibidaRow where
  id : Nat
  numero_folio : Nat
  proveedor : String
  rut_proveedor : Option String
  fecha_emision : Option String
  monto_clp : ℚ
  monto_uf : ℚ
  estado : String
  origen : String
  tipo_documento : Nat
  categoria : String
  actualizado_sii : String
  deriving Repr, DecidableEq

/-- A row of the `sii_sync_log` audit table. -/
structure SyncLogRow where
  tipo_sync : String
  periodo : String
  documentos_nuevos : Nat
  documentos_actualizados : Nat
  errores : Option String
  estado : String
  usuario_email : Option String
  deriving Repr, DecidableEq

/-- A row of the `uf_valores` reference-rate table; `fecha` is a day number
(order-isomorphic to dates). -/
structure UFRow where
  fecha : Nat
  valor : ℚ
  deriving Repr, DecidableEq

/-- Summary returned by a reconciler run: the fields nuevos, actualizados
and errores of the returned object. -/
structure Resultado where
  nuevos : Nat
  actualizados : Nat
  errores : List String
  deriving Repr, DecidableEq

/-- JS or-default for an optional string: null and the empty string are
falsy, so both fall back to the default. -/
def orDefault (v : Option String) (dflt : String) : String :=
  match v with
  | none => dflt
  | some s => if s = "" then dflt else s

/-- Date part of the ISO timestamp: the source splits the optional
timestamp on the letter T and keeps the first part, or null when the
timestamp is absent (or that part is empty, which JS treats as falsy). -/
def fechaToDate (v : Option String) : Option String :=
  match v with
  | none => none
  | some s =>
    let d := (s.splitOn "T").headD ""
    if d = "" then none else some d

/-- Derived amount `Math.round((montoTotal / ufActual) * 100) / 100` in UF,
rounded
to two decimals (JS `Math.round` is round-half-up, Mathlib `round`). -/
def montoUF (t uf : ℚ) : ℚ :=
  (round (t / uf * 100) : ℤ) / 100

/-- The `factura` object built for a sales document (lines 76-87 of the
source); `id` is the fresh key the datastore would assign on insert, `now`
is `new Date().toISOString()`. -/
def mapEmitida (d : Doc) (uf : ℚ) (now : String) (id : Nat) : EmitidaRow :=
  { id := id
    numero_folio := d.folio
    cliente := orDefault d.razonSocial "Cliente"
    rut_cliente := d.rutCliente
    fecha_emision := fechaToDate d.fechaEmision
    monto_clp := d.montoTotal
    monto_uf := montoUF d.montoTotal uf
    estado := orDefault d.estado "Emitida"
    origen := "SimpleAPI"
    tipo_documento := d.tipoDTE
    actualizado_sii := now }

/-- The `factura` object built for a purchase document (lines 135-147). -/
def mapRecibida (d : Doc) (uf : ℚ) (now : String) (id : Nat) : RecibidaRow :=
  { id := id
    numero_folio := d.folio
    proveedor := orDefault d.razonSocial "Proveedor"
    rut_proveedor := d.rutProveedor
    fecha_emision := fechaToDate d.fechaEmision
    monto_clp := d.montoTotal
    monto_uf := montoUF d.montoTotal uf
    estado := orDefault d.estado "Recibida"
    origen := "SimpleAPI"
    tipo_documento := d.tipoDTE
    categoria := "Servicios"
    actualizado_sii := now }

/-- Natural-key test of the lookup: `numero_folio` equals the folio of the
document and `origen` equals the SimpleAPI origin tag. -/
def esClaveEmitida (folio : Nat) (r : EmitidaRow) : Bool :=
  r.numero_folio == folio && r.origen == "SimpleAPI"

/-- Same natural-key test on the `facturas_recibidas` table. -/
def esClaveRecibida (folio : Nat) (r : RecibidaRow) : Bool :=
  r.numero_folio == folio && r.origen == "SimpleAPI"

/-- The `select ... .single()` lookup: Supabase `single()` yields non-null
`data` exactly when the filter matches one row; on zero or several matches it
resolves with an error and null `data`, which the source reads as "not
found". -/
def lookupEmitida (st : List EmitidaRow) (folio : Nat) : Option EmitidaRow :=
  match st.filter (esClaveEmitida folio) with
  | [r] => some r
  | _ => none

/-- Lookup on the `facturas_recibidas` table. -/
def lookupRecibida (st : List RecibidaRow) (folio : Nat) : Option RecibidaRow :=
  match st.filter (esClaveRecibida folio) with
  | [r] => some r
  | _ => none

/-- The error string pushed to `errores`: the word Folio, the folio, a
colon, and the message. -/
def errorString (folio : Nat) (msg : String) : String :=
  "Folio " ++ toString folio ++ ": " ++ msg

/-- Body of the `for` loop of `procesarFacturasEmitidas` (lines 74-120) for
one document, given the behaviour `e` of the environment for that iteration.
Returns the contribution of the iteration to the summary, the table after the
iteration, and the next fresh id. -/
def stepEmitida (uf : ℚ) (now : String) (st : List EmitidaRow) (nid : Nat)
    (d : Doc) (e : DbEvent) : Resultado × List EmitidaRow × Nat :=
  match e with
  | DbEvent.raise msg => (⟨0, 0, [errorString d.folio msg]⟩, st, nid)
  | _ =>
    match lookupEmitida st d.folio with
    | some existe =>
      match e with
      | DbEvent.updateErr _ => (⟨0, 1, []⟩, st, nid)
      | _ =>
        let f := mapEmitida d uf now 0
        (⟨0, 1, []⟩,
         st.map (fun row =>
           if row.id = existe.id then
             { row with monto_clp := f.monto_clp, monto_uf := f.monto_uf,
                        actualizado_sii := f.actualizado_sii }
           else row),
         nid)
    | none =>
      match e with
      | DbEvent.insertErr msg => (⟨0, 0, [errorString d.folio msg]⟩, st, nid)
      | _ => (⟨1, 0, []⟩, st ++ [mapEmitida d uf now nid], nid + 1)

/-- Body of the `for` loop of `procesarFacturasRecibidas` (lines 133-180). -/
def stepRecibida (uf : ℚ) (now : String) (st : List RecibidaRow) (nid : Nat)
    (d : Doc) (e : DbEvent) : Resultado × List RecibidaRow × Nat :=
  match e with
  | DbEvent.raise msg => (⟨0, 0, [errorString d.folio msg]⟩, st, nid)
  | _ =>
    match lookupRecibida st d.folio with
    | some existe =>
      match e with
      | DbEvent.updateErr _ => (⟨0, 1, []⟩, st, nid)
      | _ =>
        let f := mapRecibida d uf now 0
        (⟨0, 1, []⟩,
         st.map (fun row =>
           if row.id = existe.id then
             { row with monto_clp := f.monto_clp, monto_uf := f.monto_uf,
                        actualizado_sii := f.actualizado_sii }
           else row),
         nid)
    | none =>
      match e with
      | DbEvent.insertErr msg => (⟨0, 0, [errorString d.folio msg]⟩, st, nid)
      | _ => (⟨1, 0, []⟩, st ++ [mapRecibida d uf now nid], nid + 1)

/-- Reconciler `procesarFacturasEmitidas(documentos, ufActual)` (lines
69-123): fold the
per-document loop over the document sequence (each paired with the
behaviour of the environment for its iteration), accumulating
nuevos, actualizados and errores, and threading the table state. -/
def procesarFacturasEmitidas (documentos : List (Doc × DbEvent)) (uf : ℚ)
    (now : String) (st : List EmitidaRow) (nid : Nat) :
    Resultado × List EmitidaRow × Nat :=
  match documentos with
  | [] => (⟨0, 0, []⟩, st, nid)
  | (d, e) :: rest =>
    let p := stepEmitida uf now st nid d e
    let q := procesarFacturasEmitidas rest uf now p.2.1 p.2.2
    (⟨p.1.nuevos + q.1.nuevos, p.1.actualizados + q.1.actualizados,
      p.1.errores ++ q.1.errores⟩, q.2)

/-- Reconciler `procesarFacturasRecibidas(documentos, ufActual)` (lines
128-183). -/
def procesarFacturasRecibidas (documentos : List (Doc × DbEvent)) (uf : ℚ)
    (now : String) (st : List RecibidaRow) (nid : Nat) :
    Resultado × List RecibidaRow × Nat :=
  match documentos with
  | [] => (⟨0, 0, []⟩, st, nid)
  | (d, e) :: rest =>
    let p := stepRecibida uf now st nid d e
    let q := procesarFacturasRecibidas rest uf now p.2.1 p.2.2
    (⟨p.1.nuevos + q.1.nuevos, p.1.actualizados + q.1.actualizados,
      p.1.errores ++ q.1.errores⟩, q.2)

/-- The row of `uf_valores` that the query returns when it orders by
`fecha` descending with limit 1: an entry with maximal `fecha` (the first
such, on ties). -/
def mostRecent : List UFRow → Option UFRow
  | [] => none
  | r :: rs =>
    match mostRecent rs with
    | none => some r
    | some m => if m.fecha > r.fecha then some m else some r

/-- Rate lookup `getUFActual()` (lines 17-26): `data?.valor || 38000`.
`lookupFails`
models a rejected/failed query (null `data`); an empty series also yields
null `data` via `single()`; a falsy stored `valor` (0) likewise falls back. -/
def getUFActual (lookupFails : Bool) (rows : List UFRow) : ℚ :=
  if lookupFails then 38000
  else
    match mostRecent rows with
    | none => 38000
    | some r => if r.valor = 0 then 38000 else r.valor

/-- Outcome of the SimpleAPI HTTP call: a non-success status with the
response body text, or a parsed JSON body whose two nested arrays may each be
absent.  Each document carries the datastore behaviour for its iteration. -/
inductive FetchOutcome where
  | httpError (status : Nat) (body : String)
  | success (ventas compras : Option (List (Doc × DbEvent)))
  deriving Repr, DecidableEq

/-- Fetcher `consultarRCV(mes, año, credentials)` (lines 32-64): on a
non-ok response
throws an error labelled Error SimpleAPI with the status and the response
text; on success extracts
`data.ventas?.detalleVentas || []` and `data.compras?.detalleCompras || []`. -/
def consultarRCV : FetchOutcome →
    Except String (List (Doc × DbEvent) × List (Doc × DbEvent))
  | FetchOutcome.httpError status body =>
    Except.error ("Error SimpleAPI: " ++ toString status ++ " - " ++ body)
  | FetchOutcome.success v c => Except.ok (v.getD [], c.getD [])

/-- Audit logger `registrarSync(tipo, periodo, resultado, userEmail)`
(lines 185-197): the
single audit row inserted into `sii_sync_log`. -/
def registrarSync (tipo periodo : String) (resultado : Resultado)
    (userEmail : Option String) : SyncLogRow :=
  { tipo_sync := tipo
    periodo := periodo
    documentos_nuevos := resultado.nuevos
    documentos_actualizados := resultado.actualizados
    errores := if resultado.errores.length > 0
               then some (String.intercalate "; " resultado.errores) else none
    estado := if resultado.errores.length > 0 then "parcial" else "exitoso"
    usuario_email := userEmail }

/-- The regex test applied to periodo: four digits, a dash, two digits
(the YYYY-MM shape check, anchored at both ends). -/
def matchesPeriodo (s : String) : Bool :=
  match s.toList with
  | [y1, y2, y3, y4, sep, m1, m2] =>
    y1.isDigit && y2.isDigit && y3.isDigit && y4.isDigit &&
    sep == '-' && m1.isDigit && m2.isDigit
  | _ => false

/-- HTTP method of the incoming request. -/
inductive Method where
  | OPTIONS
  | POST
  | GET
  | PUT
  deriving Repr, DecidableEq

/-- The parsed request: method and the JSON body fields the handler reads. -/
structure Request where
  method : Method
  periodo : Option String
  userEmail : Option String
  deriving Repr, DecidableEq

/-- The persisted datastore: the three tables this endpoint writes, plus the
fresh primary keys the datastore would assign on the next inserts. -/
structure DBState where
  facturas_emitidas : List EmitidaRow
  facturas_recibidas : List RecibidaRow
  sii_sync_log : List SyncLogRow
  nextEmitidaId : Nat
  nextRecibidaId : Nat
  deriving Repr, DecidableEq

/-- Environment of one invocation: UF-rate lookup behaviour, SimpleAPI
outcome, and the clock. -/
structure Env where
  ufLookupFails : Bool
  ufRows : List UFRow
  fetch : FetchOutcome
  now : String
  deriving Repr, DecidableEq

/-- One branch summary of the 200 response
(total, nuevas, actualizadas, errores). -/
structure Branch where
  total : Nat
  nuevas : Nat
  actualizadas : Nat
  errores : List String
  deriving Repr, DecidableEq

/-- Body of the JSON response: empty (preflight), an error-only object, a
failure object carrying success false plus the error, or the 200 summary. -/
inductive RespBody where
  | empty
  | errorMsg (e : String)
  | failure (e : String)
  | summary (periodo : String) (uf : ℚ) (emitidas recibidas : Branch)
      (message : String)
  deriving Repr, DecidableEq

/-- The HTTP response: status code and body. -/
structure Response where
  status : Nat
  body : RespBody
  deriving Repr, DecidableEq

/-- Externally visible network actions of the handler, in order: the UF-rate
read and the SimpleAPI POST (which records the `mes`/`año` put in the URL). -/
inductive Action where
  | rateLookup
  | remoteFetch (mes anio : String)
  deriving Repr, DecidableEq

/-- The 400 message for a missing or malformed `periodo`. -/
def badPeriodoMsg : String :=
  "Parámetro \"periodo\" requerido (formato: YYYY-MM)"

/-- The module handler (lines 202-277): CORS preflight, method check,
`periodo` validation, UF lookup, single SimpleAPI call, the two
reconciliations each followed by its audit row when its array is non-empty,
and the response.  Returns the response, the datastore afterwards, and the
trace of network actions performed. -/
def handler (req : Request) (env : Env) (db : DBState) :
    Response × DBState × List Action :=
  if req.method = Method.OPTIONS then (⟨200, RespBody.empty⟩, db, [])
  else if req.method ≠ Method.POST then
    (⟨405, RespBody.errorMsg "Método no permitido"⟩, db, [])
  else
    match req.periodo with
    | none => (⟨400, RespBody.errorMsg badPeriodoMsg⟩, db, [])
    | some periodo =>
      if matchesPeriodo periodo then
        let anio := (periodo.splitOn "-").headD ""
        let mes := (periodo.splitOn "-").getD 1 ""
        let ufActual := getUFActual env.ufLookupFails env.ufRows
        let trace := [Action.rateLookup, Action.remoteFetch mes anio]
        match consultarRCV env.fetch with
        | Except.error msg => (⟨500, RespBody.failure msg⟩, db, trace)
        | Except.ok (ventas, compras) =>
          let pe := if ventas.length > 0 then
              procesarFacturasEmitidas ventas ufActual env.now
                db.facturas_emitidas db.nextEmitidaId
            else (⟨0, 0, []⟩, db.facturas_emitidas, db.nextEmitidaId)
          let logE : List SyncLogRow := if ventas.length > 0 then
              [registrarSync "facturas_emitidas" periodo pe.1 req.userEmail]
            else []
          let pr := if compras.length > 0 then
              procesarFacturasRecibidas compras ufActual env.now
                db.facturas_recibidas db.nextRecibidaId
            else (⟨0, 0, []⟩, db.facturas_recibidas, db.nextRecibidaId)
          let logR : List SyncLogRow := if compras.length > 0 then
              [registrarSync "facturas_recibidas" periodo pr.1 req.userEmail]
            else []
          (⟨200, RespBody.summary periodo ufActual
              ⟨ventas.length, pe.1.nuevos, pe.1.actualizados, pe.1.errores⟩
              ⟨compras.length, pr.1.nuevos, pr.1.actualizados, pr.1.errores⟩
              ("Sincronización completada: " ++
                toString (pe.1.nuevos + pr.1.nuevos) ++ " nuevas, " ++
                toString (pe.1.actualizados + pr.1.actualizados) ++
                " actualizadas")⟩,
           { facturas_emitidas := pe.2.1
             facturas_recibidas := pr.2.1
             sii_sync_log := db.sii_sync_log ++ logE ++ logR
             nextEmitidaId := pe.2.2
             nextRecibidaId := pr.2.2 }, trace)
      else (⟨400, RespBody.errorMsg badPeriodoMsg⟩, db, [])

/-- Invariant of the `facturas_emitidas` table: at most one row per
`(numero_folio, origen = SimpleAPI)` pair. -/
def AtMostOneEmitida (st : List EmitidaRow) : Prop :=
  ∀ folio : Nat, (st.filter (esClaveEmitida folio)).length ≤ 1

/-- Invariant of the `facturas_recibidas` table: at most one row per
`(numero_folio, origen = SimpleAPI)` pair. -/
def AtMostOneRecibida (st : List RecibidaRow) : Prop :=
  ∀ folio : Nat, (st.filter (esClaveRecibida folio)).length ≤ 1

/-- Example documents used to instantiate the theorems below at concrete
inputs. -/
def exDoc1 : Doc :=
  ⟨100, some "ACME", some "11111111-1", none, some "2026-01-05T00:00:00",
   3800000, none, 33⟩

def exDoc2 : Doc :=
  ⟨101, none, none, some "22222222-2", none, 76000, some "Recibida", 34⟩

def exDoc3 : Doc :=
  ⟨102, some "Proveedor SpA", none, some "33333333-3",
   some "2026-01-07T10:00:00", 19000, none, 33⟩

section Lemmas

theorem procesarEmitidas_nil (uf : ℚ) (now : String) (st : List EmitidaRow)
    (nid : Nat) :
    procesarFacturasEmitidas [] uf now st nid = (⟨0, 0, []⟩, st, nid) := rfl

theorem procesarEmitidas_cons (d : Doc) (e : DbEvent)
    (rest : List (Doc × DbEvent)) (uf : ℚ) (now : String)
    (st : List EmitidaRow) (nid : Nat) :
    procesarFacturasEmitidas ((d, e) :: rest) uf now st nid =
      (let p := stepEmitida uf now st nid d e
       let q := procesarFacturasEmitidas rest uf now p.2.1 p.2.2
       (⟨p.1.nuevos + q.1.nuevos, p.1.actualizados + q.1.actualizados,
         p.1.errores ++ q.1.errores⟩, q.2)) := rfl

theorem procesarRecibidas_nil (uf : ℚ) (now : String) (st : List RecibidaRow)
    (nid : Nat) :
    procesarFacturasRecibidas [] uf now st nid = (⟨0, 0, []⟩, st, nid) := rfl

theorem procesarRecibidas_cons (d : Doc) (e : DbEvent)
    (rest : List (Doc × DbEvent)) (uf : ℚ) (now : String)
    (st : List RecibidaRow) (nid : Nat) :
    procesarFacturasRecibidas ((d, e) :: rest) uf now st nid =
      (let p := stepRecibida uf now st nid d e
       let q := procesarFacturasRecibidas rest uf now p.2.1 p.2.2
       (⟨p.1.nuevos + q.1.nuevos, p.1.actualizados + q.1.actualizados,
         p.1.errores ++ q.1.errores⟩, q.2)) := rfl

theorem stepEmitida_count (uf : ℚ) (now : String) (st : List EmitidaRow)
    (nid : Nat) (d : Doc) (e : DbEvent) :
    (stepEmitida uf now st nid d e).1.nuevos +
      (stepEmitida uf now st nid d e).1.actualizados +
      (stepEmitida uf now st nid d e).1.errores.length = 1 := by
  cases e <;> cases h : lookupEmitida st d.folio <;> simp [stepEmitida, h]

theorem stepRecibida_count (uf : ℚ) (now : String) (st : List RecibidaRow)
    (nid : Nat) (d : Doc) (e : DbEvent) :
    (stepRecibida uf now st nid d e).1.nuevos +
      (stepRecibida uf now st nid d e).1.actualizados +
      (stepRecibida uf now st nid d e).1.errores.length = 1 := by
  cases e <;> cases h : lookupRecibida st d.folio <;> simp [stepRecibida, h]

theorem stepEmitida_ok (uf : ℚ) (now : String) (st : List EmitidaRow)
    (nid : Nat) (d : Doc) :
    (stepEmitida uf now st nid d DbEvent.ok).1.errores = [] ∧
      (stepEmitida uf now st nid d DbEvent.ok).1.nuevos +
        (stepEmitida uf now st nid d DbEvent.ok).1.actualizados = 1 := by
  cases h : lookupEmitida st d.folio <;> simp [stepEmitida, h]

theorem procesarEmitidas_count (documentos : List (Doc × DbEvent)) (uf : ℚ)
    (now : String) :
    ∀ st nid,
      (procesarFacturasEmitidas documentos uf now st nid).1.nuevos +
        (procesarFacturasEmitidas documentos uf now st nid).1.actualizados +
        (procesarFacturasEmitidas documentos uf now st nid).1.errores.length =
        documentos.length := by
  induction documentos with
  | nil => intro st nid; simp [procesarEmitidas_nil]
  | cons de rest ih =>
    intro st nid
    obtain ⟨d, e⟩ := de
    have h1 := stepEmitida_count uf now st nid d e
    have h2 := ih (stepEmitida uf now st nid d e).2.1
      (stepEmitida uf now st nid d e).2.2
    simp only [procesarEmitidas_cons, List.length_cons, List.length_append]
    omega

theorem procesarRecibidas_count (documentos : List (Doc × DbEvent)) (uf : ℚ)
    (now : String) :
    ∀ st nid,
      (procesarFacturasRecibidas documentos uf now st nid).1.nuevos +
        (procesarFacturasRecibidas documentos uf now st nid).1.actualizados +
        (procesarFacturasRecibidas documentos uf now st nid).1.errores.length =
        documentos.length := by
  induction documentos with
  | nil => intro st nid; simp [procesarRecibidas_nil]
  | cons de rest ih =>
    intro st nid
    obtain ⟨d, e⟩ := de
    have h1 := stepRecibida_count uf now st nid d e
    have h2 := ih (stepRecibida uf now st nid d e).2.1
      (stepRecibida uf now st nid d e).2.2
    simp only [procesarRecibidas_cons, List.length_cons, List.length_append]
    omega

end Lemmas

/-- C9: every document of a reconciliation run is counted in exactly one of
the three outcomes: `nuevos + actualizados + errores.length` equals the
number of documents processed, for both reconcilers. -/
theorem spec_C9_summary_partitions_input :
    (∀ (documentos : List (Doc × DbEvent)) (uf : ℚ) (now : String)
        (st : List EmitidaRow) (nid : Nat),
      (procesarFacturasEmitidas documentos uf now st nid).1.nuevos +
        (procesarFacturasEmitidas documentos uf now st nid).1.actualizados +
        (procesarFacturasEmitidas documentos uf now st nid).1.errores.length =
        documentos.length) ∧
    (∀ (documentos : List (Doc × DbEvent)) (uf : ℚ) (now : String)
        (st : List RecibidaRow) (nid : Nat),
      (procesarFacturasRecibidas documentos uf now st nid).1.nuevos +
        (procesarFacturasRecibidas documentos uf now st nid).1.actualizados +
        (procesarFacturasRecibidas documentos uf now st nid).1.errores.length =
        documentos.length) :=
  ⟨fun documentos uf now st nid => procesarEmitidas_count documentos uf now st nid,
   fun documentos uf now st nid => procesarRecibidas_count documentos uf now st nid⟩

/-- C6: for both reconcilers the stored `monto_uf` is the document total
divided by the reference rate, rounded to two decimals as
`round((T/R)*100)/100`; at T = 3800000 and R = 38000 it is exactly 100. -/
theorem spec_C6_monto_uf_rounding (d : Doc) (uf : ℚ) (now : String)
    (id : Nat) (huf : uf ≠ 0) :
    (mapEmitida d uf now id).monto_uf =
        (round (d.montoTotal / uf * 100) : ℤ) / 100 ∧
      (mapRecibida d uf now id).monto_uf =
        (round (d.montoTotal / uf * 100) : ℤ) / 100 ∧
      montoUF 3800000 38000 = 100 := by
  refine ⟨rfl, rfl, ?_⟩
  have h : (3800000 : ℚ) / 38000 * 100 = 10000 := by norm_num
  rw [montoUF, h]
  norm_num

section UFLemmas

theorem mostRecent_eq_none (rows : List UFRow) :
    mostRecent rows = none ↔ rows = [] := by
  cases rows with
  | nil => simp [mostRecent]
  | cons r rs =>
    simp only [mostRecent]
    cases h : mostRecent rs with
    | none => simp
    | some m => by_cases hf : m.fecha > r.fecha <;> simp [hf]

theorem mostRecent_mem (rows : List UFRow) (r : UFRow)
    (h : mostRecent rows = some r) : r ∈ rows := by
  induction rows with
  | nil => simp [mostRecent] at h
  | cons x xs ih =>
    simp only [mostRecent] at h
    cases hx : mostRecent xs with
    | none => rw [hx] at h; simp at h; simp [h]
    | some m =>
      rw [hx] at h
      simp only [] at h
      by_cases hf : m.fecha > x.fecha
      · rw [if_pos hf] at h
        simp at h
        subst h
        exact List.mem_cons_of_mem x (ih hx)
      · rw [if_neg hf] at h
        simp at h
        simp [h]

theorem mostRecent_max (rows : List UFRow) (r : UFRow) (hmem : r ∈ rows)
    (hmax : ∀ r' ∈ rows, r' ≠ r → r'.fecha < r.fecha) :
    mostRecent rows = some r := by
  induction rows with
  | nil => simp at hmem
  | cons x xs ih =>
    simp only [mostRecent]
    cases hx : mostRecent xs with
    | none =>
      simp only []
      have hxs : xs = [] := (mostRecent_eq_none xs).mp hx
      subst hxs
      simp at hmem
      simp [hmem]
    | some m =>
      simp only []
      have hm : m ∈ xs := mostRecent_mem xs m hx
      by_cases hxr : x = r
      · subst hxr
        by_cases hmr : m = x
        · subst hmr; simp
        · have hlt := hmax m (List.mem_cons_of_mem x hm) hmr
          rw [if_neg (by omega)]
      · have hr : r ∈ xs := by
          rcases List.mem_cons.mp hmem with h | h
          · exact absurd h.symm hxr
          · exact h
        have ihr : mostRecent xs = some r :=
          ih hr (fun r' h' hne => hmax r' (List.mem_cons_of_mem x h') hne)
        rw [hx] at ihr
        injection ihr with ihr
        rw [ihr]
        have hxf : x.fecha < r.fecha := hmax x (List.mem_cons_self x xs) hxr
        rw [if_pos (by omega)]

end UFLemmas

/-- C8 fails as stated: a stored `valor` of 0 is falsy in JS, so
`data?.valor || 38000` substitutes the fallback even though the series is
non-empty and the lookup succeeded — the returned value is not the `valor`
of the most recent row. -/
theorem spec_C8_counterexample :
    mostRecent [({ fecha := 1, valor := 0 } : UFRow)] =
        some { fecha := 1, valor := 0 } ∧
      getUFActual false [{ fecha := 1, valor := 0 }] = 38000 ∧
      (38000 : ℚ) ≠ (({ fecha := 1, valor := 0 } : UFRow)).valor := by
  refine ⟨rfl, rfl, by norm_num⟩

/-- C8 amended: `getUFActual` returns 38000 when the lookup fails or the
series is empty, and otherwise returns the `valor` of the row with the most
recent `fecha` unless that `valor` is 0 (JS falsy), in which case it also
returns 38000; it never throws (it is a total function of its inputs). -/
theorem spec_C8_uf_fallback_amended :
    (∀ rows : List UFRow, getUFActual true rows = 38000) ∧
    (∀ fails : Bool, getUFActual fails [] = 38000) ∧
    (∀ (rows : List UFRow) (r : UFRow), r ∈ rows →
      (∀ r' ∈ rows, r' ≠ r → r'.fecha < r.fecha) →
      getUFActual false rows = if r.valor = 0 then 38000 else r.valor) := by
  refine ⟨fun rows => rfl, fun fails => by cases fails <;> rfl, ?_⟩
  intro rows r hmem hmax
  rw [getUFActual, if_neg (by simp), mostRecent_max rows r hmem hmax]

/-- Witness for C8 (amended) on a one-row series with a nonzero rate. -/
theorem spec_C8_witness :
    getUFActual false [({ fecha := 5, valor := 39000 } : UFRow)] =
      if (({ fecha := 5, valor := 39000 } : UFRow)).valor = 0 then 38000
      else (({ fecha := 5, valor := 39000 } : UFRow)).valor := by
  exact spec_C8_uf_fallback_amended.2.2 [⟨5, 39000⟩] ⟨5, 39000⟩ (by simp)
    (by intro r' h1 h2; simp at h1; exact absurd h1 h2)

/-- C10: when the folio lookup finds an existing row, the result of the update is
discarded: even under a datastore error on the update, the run counts the
document in `actualizados`, adds nothing to `errores`, and (the update having
failed) leaves the table unchanged — for both reconcilers. -/
theorem spec_C10_update_error_discarded :
    (∀ (d : Doc) (m : String) (uf : ℚ) (now : String) (st : List EmitidaRow)
        (nid : Nat) (r : EmitidaRow), lookupEmitida st d.folio = some r →
      procesarFacturasEmitidas [(d, DbEvent.updateErr m)] uf now st nid =
        (⟨0, 1, []⟩, st, nid)) ∧
    (∀ (d : Doc) (m : String) (uf : ℚ) (now : String) (st : List RecibidaRow)
        (nid : Nat) (r : RecibidaRow), lookupRecibida st d.folio = some r →
      procesarFacturasRecibidas [(d, DbEvent.updateErr m)] uf now st nid =
        (⟨0, 1, []⟩, st, nid)) := by
  constructor
  · intro d m uf now st nid r h
    simp [procesarEmitidas_cons, procesarEmitidas_nil, stepEmitida, h]
  · intro d m uf now st nid r h
    simp [procesarRecibidas_cons, procesarRecibidas_nil, stepRecibida, h]

/-- Witness for C10: a table holding exactly the row for folio 100. -/
theorem spec_C10_witness :
    procesarFacturasEmitidas [(exDoc1, DbEvent.updateErr "update failed")]
        38000 "t1" [mapEmitida exDoc1 38000 "t0" 1] 2 =
      (⟨0, 1, []⟩, [mapEmitida exDoc1 38000 "t0" 1], 2) :=
  spec_C10_update_error_discarded.1 exDoc1 "update failed" 38000 "t1"
    [mapEmitida exDoc1 38000 "t0" 1] 2 (mapEmitida exDoc1 38000 "t0" 1) rfl

theorem filterEmitida_eq_nil (st : List EmitidaRow) (folio : Nat)
    (inv : AtMostOneEmitida st) (hlk : lookupEmitida st folio = none) :
    st.filter (esClaveEmitida folio) = [] := by
  have h := inv folio
  rcases hf : st.filter (esClaveEmitida folio) with _ | ⟨a, _ | ⟨b, l⟩⟩
  · rfl
  · rw [lookupEmitida, hf] at hlk; simp at hlk
  · rw [hf] at h; simp at h

theorem filterRecibida_eq_nil (st : List RecibidaRow) (folio : Nat)
    (inv : AtMostOneRecibida st) (hlk : lookupRecibida st folio = none) :
    st.filter (esClaveRecibida folio) = [] := by
  have h := inv folio
  rcases hf : st.filter (esClaveRecibida folio) with _ | ⟨a, _ | ⟨b, l⟩⟩
  · rfl
  · rw [lookupRecibida, hf] at hlk; simp at hlk
  · rw [hf] at h; simp at h

theorem lookupEmitida_eq_some (st : List EmitidaRow) (folio : Nat)
    (r : EmitidaRow) (inv : AtMostOneEmitida st) (hr : r ∈ st)
    (hkey : esClaveEmitida folio r = true) :
    lookupEmitida st folio = some r := by
  have hmem : r ∈ st.filter (esClaveEmitida folio) :=
    List.mem_filter.mpr ⟨hr, hkey⟩
  have h := inv folio
  rcases hf : st.filter (esClaveEmitida folio) with _ | ⟨a, _ | ⟨b, l⟩⟩
  · rw [hf] at hmem; simp at hmem
  · rw [hf] at hmem
    simp at hmem
    rw [lookupEmitida, hf, hmem]
  · rw [hf] at h; simp at h

theorem lookupRecibida_eq_some (st : List RecibidaRow) (folio : Nat)
    (r : RecibidaRow) (inv : AtMostOneRecibida st) (hr : r ∈ st)
    (hkey : esClaveRecibida folio r = true) :
    lookupRecibida st folio = some r := by
  have hmem : r ∈ st.filter (esClaveRecibida folio) :=
    List.mem_filter.mpr ⟨hr, hkey⟩
  have h := inv folio
  rcases hf : st.filter (esClaveRecibida folio) with _ | ⟨a, _ | ⟨b, l⟩⟩
  · rw [hf] at hmem; simp at hmem
  · rw [hf] at hmem
    simp at hmem
    rw [lookupRecibida, hf, hmem]
  · rw [hf] at h; simp at h

theorem length_filter_map_eq {α : Type} (g : α → α) (p : α → Bool)
    (hp : ∀ a, p (g a) = p a) (l : List α) :
    ((l.map g).filter p).length = (l.filter p).length := by
  induction l with
  | nil => rfl
  | cons x xs ih =>
    simp only [List.map_cons, List.filter_cons, hp]
    by_cases hk : p x <;> simp [hk, ih]

theorem stepEmitida_preserves (uf : ℚ) (now : String) (st : List EmitidaRow)
    (nid : Nat) (d : Doc) (e : DbEvent) (inv : AtMostOneEmitida st) :
    AtMostOneEmitida (stepEmitida uf now st nid d e).2.1 := by
  cases e with
  | raise m => simpa [stepEmitida] using inv
  | ok =>
    cases hlk : lookupEmitida st d.folio with
    | some existe =>
      intro folio
      simp only [stepEmitida, hlk]
      refine le_trans (le_of_eq (length_filter_map_eq _ _ ?_ st)) (inv folio)
      intro a
      by_cases hid : a.id = existe.id <;> simp [hid, esClaveEmitida]
    | none =>
      intro folio
      have hnil := filterEmitida_eq_nil st d.folio inv hlk
      simp only [stepEmitida, hlk]
      rw [List.filter_append]
      by_cases hfol : folio = d.folio
      · subst hfol
        rw [hnil]
        simp [esClaveEmitida, mapEmitida]
      · have hkey : esClaveEmitida folio (mapEmitida d uf now nid) = false := by
          simp [esClaveEmitida, mapEmitida]
          omega
        simp [hkey]
        simpa using inv folio
  | insertErr m =>
    cases hlk : lookupEmitida st d.folio with
    | some existe =>
      intro folio
      simp only [stepEmitida, hlk]
      refine le_trans (le_of_eq (length_filter_map_eq _ _ ?_ st)) (inv folio)
      intro a
      by_cases hid : a.id = existe.id <;> simp [hid, esClaveEmitida]
    | none => simpa [stepEmitida, hlk] using inv
  | updateErr m =>
    cases hlk : lookupEmitida st d.folio with
    | some existe => simpa [stepEmitida, hlk] using inv
    | none =>
      intro folio
      have hnil := filterEmitida_eq_nil st d.folio inv hlk
      simp only [stepEmitida, hlk]
      rw [List.filter_append]
      by_cases hfol : folio = d.folio
      · subst hfol
        rw [hnil]
        simp [esClaveEmitida, mapEmitida]
      · have hkey : esClaveEmitida folio (mapEmitida d uf now nid) = false := by
          simp [esClaveEmitida, mapEmitida]
          omega
        simp [hkey]
        simpa using inv folio

theorem stepRecibida_preserves (uf : ℚ) (now : String)
    (st : List RecibidaRow) (nid : Nat) (d : Doc) (e : DbEvent)
    (inv : AtMostOneRecibida st) :
    AtMostOneRecibida (stepRecibida uf now st nid d e).2.1 := by
  cases e with
  | raise m => simpa [stepRecibida] using inv
  | ok =>
    cases hlk : lookupRecibida st d.folio with
    | some existe =>
      intro folio
      simp only [stepRecibida, hlk]
      refine le_trans (le_of_eq (length_filter_map_eq _ _ ?_ st)) (inv folio)
      intro a
      by_cases hid : a.id = existe.id <;> simp [hid, esClaveRecibida]
    | none =>
      intro folio
      have hnil := filterRecibida_eq_nil st d.folio inv hlk
      simp only [stepRecibida, hlk]
      rw [List.filter_append]
      by_cases hfol : folio = d.folio
      · subst hfol
        rw [hnil]
        simp [esClaveRecibida, mapRecibida]
      · have hkey : esClaveRecibida folio (mapRecibida d uf now nid) = false := by
          simp [esClaveRecibida, mapRecibida]
          omega
        simp [hkey]
        simpa using inv folio
  | insertErr m =>
    cases hlk : lookupRecibida st d.folio with
    | some existe =>
      intro folio
      simp only [stepRecibida, hlk]
      refine le_trans (le_of_eq (length_filter_map_eq _ _ ?_ st)) (inv folio)
      intro a
      by_cases hid : a.id = existe.id <;> simp [hid, esClaveRecibida]
    | none => simpa [stepRecibida, hlk] using inv
  | updateErr m =>
    cases hlk : lookupRecibida st d.folio with
    | some existe => simpa [stepRecibida, hlk] using inv
    | none =>
      intro folio
      have hnil := filterRecibida_eq_nil st d.folio inv hlk
      simp only [stepRecibida, hlk]
      rw [List.filter_append]
      by_cases hfol : folio = d.folio
      · subst hfol
        rw [hnil]
        simp [esClaveRecibida, mapRecibida]
      · have hkey : esClaveRecibida folio (mapRecibida d uf now nid) = false := by
          simp [esClaveRecibida, mapRecibida]
          omega
        simp [hkey]
        simpa using inv folio

theorem procesarEmitidas_preserves (documentos : List (Doc × DbEvent))
    (uf : ℚ) (now : String) :
    ∀ st nid, AtMostOneEmitida st →
      AtMostOneEmitida
        ((procesarFacturasEmitidas documentos uf now st nid).2.1) := by
  induction documentos with
  | nil => intro st nid inv; simpa [procesarEmitidas_nil] using inv
  | cons de rest ih =>
    intro st nid inv
    obtain ⟨d, e⟩ := de
    simp only [procesarEmitidas_cons]
    exact ih _ _ (stepEmitida_preserves uf now st nid d e inv)

theorem procesarRecibidas_preserves (documentos : List (Doc × DbEvent))
    (uf : ℚ) (now : String) :
    ∀ st nid, AtMostOneRecibida st →
      AtMostOneRecibida
        ((procesarFacturasRecibidas documentos uf now st nid).2.1) := by
  induction documentos with
  | nil => intro st nid inv; simpa [procesarRecibidas_nil] using inv
  | cons de rest ih =>
    intro st nid inv
    obtain ⟨d, e⟩ := de
    simp only [procesarRecibidas_cons]
    exact ih _ _ (stepRecibida_preserves uf now st nid d e inv)

/-- C1: both reconcilers preserve the invariant of at most one row per
`(numero_folio, origen = SimpleAPI)` pair: a document whose folio is
already present updates the row found by the `(numero_folio, origen)`
lookup, and a row is inserted only when the lookup finds none, so a repeated
folio never produces a second row. -/
theorem spec_C1_unique_folio_invariant_preserved :
    (∀ (documentos : List (Doc × DbEvent)) (uf : ℚ) (now : String)
        (st : List EmitidaRow) (nid : Nat), AtMostOneEmitida st →
      AtMostOneEmitida
        ((procesarFacturasEmitidas documentos uf now st nid).2.1)) ∧
    (∀ (documentos : List (Doc × DbEvent)) (uf : ℚ) (now : String)
        (st : List RecibidaRow) (nid : Nat), AtMostOneRecibida st →
      AtMostOneRecibida
        ((procesarFacturasRecibidas documentos uf now st nid).2.1)) :=
  ⟨fun documentos uf now st nid inv =>
    procesarEmitidas_preserves documentos uf now st nid inv,
   fun documentos uf now st nid inv =>
    procesarRecibidas_preserves documentos uf now st nid inv⟩

/-- Witness for C1: two syncs of the same folio starting from an empty
table. -/
theorem spec_C1_witness :
    AtMostOneEmitida
      ((procesarFacturasEmitidas
        [(exDoc1, DbEvent.ok), (exDoc1, DbEvent.ok)] 38000 "t" [] 1).2.1) ∧
    AtMostOneRecibida
      ((procesarFacturasRecibidas
        [(exDoc2, DbEvent.ok), (exDoc2, DbEvent.ok)] 38000 "t" [] 1).2.1) :=
  ⟨spec_C1_unique_folio_invariant_preserved.1
      [(exDoc1, DbEvent.ok), (exDoc1, DbEvent.ok)] 38000 "t" [] 1
      (fun folio => by simp),
   spec_C1_unique_folio_invariant_preserved.2
      [(exDoc2, DbEvent.ok), (exDoc2, DbEvent.ok)] 38000 "t" [] 1
      (fun folio => by simp)⟩

/-- C2: reconciling a document whose `(folio, SimpleAPI)` row already
exists rewrites only that row, and only its `monto_clp`, `monto_uf` and
`actualizado_sii` fields; every identity field keeps its old value, every
other row is untouched, no id is consumed, and the run reports
nuevos 0, actualizados 1 and empty errores — for both
reconcilers. -/
theorem spec_C2_update_frame :
    (∀ (d : Doc) (uf : ℚ) (now : String) (st : List EmitidaRow) (nid : Nat)
        (r : EmitidaRow),
      AtMostOneEmitida st → (st.map (fun x => x.id)).Nodup →
      r ∈ st → esClaveEmitida d.folio r = true →
      (procesarFacturasEmitidas [(d, DbEvent.ok)] uf now st nid).1 =
          ⟨0, 1, []⟩ ∧
        (procesarFacturasEmitidas [(d, DbEvent.ok)] uf now st nid).2.2 =
          nid ∧
        (procesarFacturasEmitidas [(d, DbEvent.ok)] uf now st nid).2.1 =
          st.map (fun row => if row = r then
            { r with monto_clp := d.montoTotal,
                     monto_uf := montoUF d.montoTotal uf,
                     actualizado_sii := now } else row)) ∧
    (∀ (d : Doc) (uf : ℚ) (now : String) (st : List RecibidaRow) (nid : Nat)
        (r : RecibidaRow),
      AtMostOneRecibida st → (st.map (fun x => x.id)).Nodup →
      r ∈ st → esClaveRecibida d.folio r = true →
      (procesarFacturasRecibidas [(d, DbEvent.ok)] uf now st nid).1 =
          ⟨0, 1, []⟩ ∧
        (procesarFacturasRecibidas [(d, DbEvent.ok)] uf now st nid).2.2 =
          nid ∧
        (procesarFacturasRecibidas [(d, DbEvent.ok)] uf now st nid).2.1 =
          st.map (fun row => if row = r then
            { r with monto_clp := d.montoTotal,
                     monto_uf := montoUF d.montoTotal uf,
                     actualizado_sii := now } else row)) := by
  constructor
  · intro d uf now st nid r inv hnd hr hkey
    have hlk := lookupEmitida_eq_some st d.folio r inv hr hkey
    refine ⟨?_, ?_, ?_⟩
    · simp [procesarEmitidas_cons, procesarEmitidas_nil, stepEmitida, hlk]
    · simp [procesarEmitidas_cons, procesarEmitidas_nil, stepEmitida, hlk]
    · simp only [procesarEmitidas_cons, procesarEmitidas_nil, stepEmitida,
        hlk]
      refine List.map_congr_left (fun row hrow => ?_)
      by_cases hcase : row = r
      · subst hcase
        simp [mapEmitida]
      · have hid : row.id ≠ r.id := fun h =>
          hcase (List.inj_on_of_nodup_map hnd hrow hr h)
        simp [hcase, hid]
  · intro d uf now st nid r inv hnd hr hkey
    have hlk := lookupRecibida_eq_some st d.folio r inv hr hkey
    refine ⟨?_, ?_, ?_⟩
    · simp [procesarRecibidas_cons, procesarRecibidas_nil, stepRecibida, hlk]
    · simp [procesarRecibidas_cons, procesarRecibidas_nil, stepRecibida, hlk]
    · simp only [procesarRecibidas_cons, procesarRecibidas_nil, stepRecibida,
        hlk]
      refine List.map_congr_left (fun row hrow => ?_)
      by_cases hcase : row = r
      · subst hcase
        simp [mapRecibida]
      · have hid : row.id ≠ r.id := fun h =>
          hcase (List.inj_on_of_nodup_map hnd hrow hr h)
        simp [hcase, hid]

/-- Witness for C2: a sync of folio 100 against a table holding exactly its
row. -/
theorem spec_C2_witness :
    (procesarFacturasEmitidas [(exDoc1, DbEvent.ok)] 38000 "t1"
        [mapEmitida exDoc1 38000 "t0" 1] 5).1 = ⟨0, 1, []⟩ ∧
      (procesarFacturasEmitidas [(exDoc1, DbEvent.ok)] 38000 "t1"
          [mapEmitida exDoc1 38000 "t0" 1] 5).2.2 = 5 ∧
      (procesarFacturasEmitidas [(exDoc1, DbEvent.ok)] 38000 "t1"
          [mapEmitida exDoc1 38000 "t0" 1] 5).2.1 =
        [mapEmitida exDoc1 38000 "t0" 1].map
          (fun row => if row = mapEmitida exDoc1 38000 "t0" 1 then
            { mapEmitida exDoc1 38000 "t0" 1 with
                monto_clp := exDoc1.montoTotal,
                monto_uf := montoUF exDoc1.montoTotal 38000,
                actualizado_sii := "t1" } else row) :=
  spec_C2_update_frame.1 exDoc1 38000 "t1" [mapEmitida exDoc1 38000 "t0" 1] 5
    (mapEmitida exDoc1 38000 "t0" 1)
    (fun folio => le_trans (List.length_filter_le _ _) (by simp))
    (by simp) (by simp) rfl

theorem procesarEmitidas_allOk (uf : ℚ) (now : String) :
    ∀ (documentos : List (Doc × DbEvent)),
      (∀ x ∈ documentos, x.2 = DbEvent.ok) →
      ∀ st nid,
        (procesarFacturasEmitidas documentos uf now st nid).1.errores = [] ∧
          (procesarFacturasEmitidas documentos uf now st nid).1.nuevos +
            (procesarFacturasEmitidas documentos uf now st nid).1.actualizados =
            documentos.length := by
  intro documentos
  induction documentos with
  | nil => intro _ st nid; simp [procesarEmitidas_nil]
  | cons de rest ih =>
    intro hok st nid
    obtain ⟨d, e⟩ := de
    have he : e = DbEvent.ok := hok (d, e) (List.mem_cons_self _ _)
    subst he
    have hrest := ih (fun x hx => hok x (List.mem_cons_of_mem _ hx))
      (stepEmitida uf now st nid d DbEvent.ok).2.1
      (stepEmitida uf now st nid d DbEvent.ok).2.2
    have hstep := stepEmitida_ok uf now st nid d
    simp only [procesarEmitidas_cons, List.length_cons]
    refine ⟨by simp [hstep.1, hrest.1], ?_⟩
    have h1 := hstep.2
    have h2 := hrest.2
    omega

theorem procesarEmitidas_raise_mid (d : Doc) (m : String)
    (post : List (Doc × DbEvent)) (uf : ℚ) (now : String)
    (hpost : ∀ x ∈ post, x.2 = DbEvent.ok) :
    ∀ (pre : List (Doc × DbEvent)), (∀ x ∈ pre, x.2 = DbEvent.ok) →
    ∀ st nid,
      (procesarFacturasEmitidas (pre ++ (d, DbEvent.raise m) :: post) uf now
          st nid).1.errores = [errorString d.folio m] ∧
        (procesarFacturasEmitidas (pre ++ (d, DbEvent.raise m) :: post) uf now
            st nid).1.nuevos +
          (procesarFacturasEmitidas (pre ++ (d, DbEvent.raise m) :: post) uf
              now st nid).1.actualizados = pre.length + post.length := by
  intro pre
  induction pre with
  | nil =>
    intro _ st nid
    have hq := procesarEmitidas_allOk uf now post hpost st nid
    simp only [List.nil_append, procesarEmitidas_cons, stepEmitida]
    refine ⟨by simp [hq.1], ?_⟩
    have h2 := hq.2
    simp only [List.length_nil]
    omega
  | cons x pre' ih =>
    intro hok st nid
    obtain ⟨d', e'⟩ := x
    have he : e' = DbEvent.ok := hok (d', e') (List.mem_cons_self _ _)
    subst he
    have hih := ih (fun x hx => hok x (List.mem_cons_of_mem _ hx))
      (stepEmitida uf now st nid d' DbEvent.ok).2.1
      (stepEmitida uf now st nid d' DbEvent.ok).2.2
    have hstep := stepEmitida_ok uf now st nid d'
    simp only [List.cons_append, procesarEmitidas_cons, List.length_cons]
    refine ⟨by simp [hstep.1, hih.1], ?_⟩
    have h1 := hstep.2
    have h2 := hih.2
    omega

/-- C3: an exception while processing one document is caught inside the
per-document loop and recorded as the single error string built from the
folio and the message, and the remaining documents are still processed;
likewise a
batch whose only failure is the insert of one document yields exactly one entry
in `errores` while every other document is still counted. -/
theorem spec_C3_per_document_error_isolation :
    (∀ (pre : List (Doc × DbEvent)) (d : Doc) (m : String)
        (post : List (Doc × DbEvent)) (uf : ℚ) (now : String)
        (st : List EmitidaRow) (nid : Nat),
      (∀ x ∈ pre, x.2 = DbEvent.ok) → (∀ x ∈ post, x.2 = DbEvent.ok) →
      (procesarFacturasEmitidas (pre ++ (d, DbEvent.raise m) :: post) uf now
          st nid).1.errores = [errorString d.folio m] ∧
        (procesarFacturasEmitidas (pre ++ (d, DbEvent.raise m) :: post) uf now
            st nid).1.nuevos +
          (procesarFacturasEmitidas (pre ++ (d, DbEvent.raise m) :: post) uf
              now st nid).1.actualizados = pre.length + post.length) ∧
    (∀ (d : Doc) (m : String) (post : List (Doc × DbEvent)) (uf : ℚ)
        (now : String) (st : List EmitidaRow) (nid : Nat),
      (∀ x ∈ post, x.2 = DbEvent.ok) → lookupEmitida st d.folio = none →
      (procesarFacturasEmitidas ((d, DbEvent.insertErr m) :: post) uf now st
          nid).1.errores = [errorString d.folio m] ∧
        (procesarFacturasEmitidas ((d, DbEvent.insertErr m) :: post) uf now st
            nid).1.nuevos +
          (procesarFacturasEmitidas ((d, DbEvent.insertErr m) :: post) uf now
              st nid).1.actualizados = post.length) := by
  constructor
  · intro pre d m post uf now st nid hpre hpost
    exact procesarEmitidas_raise_mid d m post uf now hpost pre hpre st nid
  · intro d m post uf now st nid hpost hlk
    have hq := procesarEmitidas_allOk uf now post hpost st nid
    simp only [procesarEmitidas_cons, stepEmitida, hlk]
    refine ⟨by simp [hq.1], ?_⟩
    have h2 := hq.2
    omega

/-- Witness for C3: a three-document batch whose middle document throws, and
a two-document batch where the insert of the first document fails. -/
theorem spec_C3_witness :
    ((procesarFacturasEmitidas
        [(exDoc1, DbEvent.ok), (exDoc2, DbEvent.raise "boom"),
         (exDoc3, DbEvent.ok)] 38000 "t" [] 1).1.errores =
      [errorString exDoc2.folio "boom"] ∧
      (procesarFacturasEmitidas
          [(exDoc1, DbEvent.ok), (exDoc2, DbEvent.raise "boom"),
           (exDoc3, DbEvent.ok)] 38000 "t" [] 1).1.nuevos +
        (procesarFacturasEmitidas
            [(exDoc1, DbEvent.ok), (exDoc2, DbEvent.raise "boom"),
             (exDoc3, DbEvent.ok)] 38000 "t" [] 1).1.actualizados = 2) ∧
    ((procesarFacturasEmitidas
        [(exDoc1, DbEvent.insertErr "duplicate key"), (exDoc3, DbEvent.ok)]
        38000 "t" [] 1).1.errores =
      [errorString exDoc1.folio "duplicate key"] ∧
      (procesarFacturasEmitidas
          [(exDoc1, DbEvent.insertErr "duplicate key"), (exDoc3, DbEvent.ok)]
          38000 "t" [] 1).1.nuevos +
        (procesarFacturasEmitidas
            [(exDoc1, DbEvent.insertErr "duplicate key"),
             (exDoc3, DbEvent.ok)] 38000 "t" [] 1).1.actualizados = 1) := by
  constructor
  · have h := spec_C3_per_document_error_isolation.1 [(exDoc1, DbEvent.ok)]
      exDoc2 "boom" [(exDoc3, DbEvent.ok)] 38000 "t" [] 1
      (by intro x hx; simp at hx; simp [hx]) (by intro x hx; simp at hx; simp [hx])
    simpa using h
  · have h := spec_C3_per_document_error_isolation.2 exDoc1 "duplicate key"
      [(exDoc3, DbEvent.ok)] 38000 "t" [] 1
      (by intro x hx; simp at hx; simp [hx]) rfl
    simpa using h

/-- C4: a non-success HTTP status from SimpleAPI makes `consultarRCV` fail
with a message carrying the status code and response body; the handler then
answers 500 with success false and that error message, leaves the
datastore untouched
(both reconciliation branches skipped), having performed only the rate
lookup and the remote fetch. -/
theorem spec_C4_fetch_error_aborts (status : Nat) (bodyText : String)
    (req : Request) (env : Env) (db : DBState) (p : String)
    (hm : req.method = Method.POST) (hp : req.periodo = some p)
    (hv : matchesPeriodo p = true)
    (hf : env.fetch = FetchOutcome.httpError status bodyText) :
    consultarRCV env.fetch =
      Except.error
        ("Error SimpleAPI: " ++ toString status ++ " - " ++ bodyText) ∧
    handler req env db =
      (⟨500, RespBody.failure
          ("Error SimpleAPI: " ++ toString status ++ " - " ++ bodyText)⟩, db,
       [Action.rateLookup,
        Action.remoteFetch ((p.splitOn "-").getD 1 "")
          ((p.splitOn "-").headD "")]) := by
  constructor
  · rw [hf]; rfl
  · simp [handler, hm, hp, hv, hf, consultarRCV]

/-- Witness for C4: a 401 from SimpleAPI for period 2026-01. -/
theorem spec_C4_witness :
    consultarRCV (FetchOutcome.httpError 401 "Unauthorized") =
      Except.error "Error SimpleAPI: 401 - Unauthorized" ∧
    handler ⟨Method.POST, some "2026-01", none⟩
        ⟨false, [], FetchOutcome.httpError 401 "Unauthorized", "t"⟩
        ⟨[], [], [], 1, 1⟩ =
      (⟨500, RespBody.failure "Error SimpleAPI: 401 - Unauthorized"⟩,
       ⟨[], [], [], 1, 1⟩,
       [Action.rateLookup,
        Action.remoteFetch (("2026-01".splitOn "-").getD 1 "")
          (("2026-01".splitOn "-").headD "")]) := by
  have h := spec_C4_fetch_error_aborts 401 "Unauthorized"
    ⟨Method.POST, some "2026-01", none⟩
    ⟨false, [], FetchOutcome.httpError 401 "Unauthorized", "t"⟩
    ⟨[], [], [], 1, 1⟩ "2026-01" rfl rfl (by decide) rfl
  have hs : ("Error SimpleAPI: " ++ toString 401 ++ " - " ++ "Unauthorized") =
      "Error SimpleAPI: 401 - Unauthorized" := by decide
  rw [hs] at h
  exact h

/-- C5: OPTIONS gets 200 with an empty body; any other non-POST method gets
405; a missing or malformed `periodo` gets 400 — in all three cases with no
rate lookup, no remote fetch, and no datastore change; for a well-formed
`periodo` the year and month sent to SimpleAPI are the first and second
components of splitting `periodo` on `-`. -/
theorem spec_C5_validation_before_effects (req : Request) (env : Env)
    (db : DBState) :
    (req.method = Method.OPTIONS →
      handler req env db = (⟨200, RespBody.empty⟩, db, [])) ∧
    (req.method ≠ Method.OPTIONS → req.method ≠ Method.POST →
      handler req env db =
        (⟨405, RespBody.errorMsg "Método no permitido"⟩, db, [])) ∧
    (req.method = Method.POST → req.periodo = none →
      handler req env db = (⟨400, RespBody.errorMsg badPeriodoMsg⟩, db, [])) ∧
    (∀ p : String, req.method = Method.POST → req.periodo = some p →
      matchesPeriodo p = false →
      handler req env db = (⟨400, RespBody.errorMsg badPeriodoMsg⟩, db, [])) ∧
    (∀ p : String, req.method = Method.POST → req.periodo = some p →
      matchesPeriodo p = true →
      (handler req env db).2.2 =
        [Action.rateLookup,
         Action.remoteFetch ((p.splitOn "-").getD 1 "")
           ((p.splitOn "-").headD "")]) := by
  refine ⟨?_, ?_, ?_, ?_, ?_⟩
  · intro h; simp [handler, h]
  · intro h1 h2; simp [handler, h1, h2]
  · intro h1 h2; simp [handler, h1, h2]
  · intro p h1 h2 h3; simp [handler, h1, h2, h3]
  · intro p h1 h2 h3
    cases hf : env.fetch with
    | httpError s b => simp [handler, h1, h2, h3, hf, consultarRCV]
    | success v c => simp [handler, h1, h2, h3, hf, consultarRCV]

/-- Witness for C5 on concrete requests: preflight, GET, missing and
malformed `periodo`, and the parse of a valid one. -/
theorem spec_C5_witness :
    handler ⟨Method.OPTIONS, none, none⟩
        ⟨false, [], FetchOutcome.success none none, "t"⟩ ⟨[], [], [], 1, 1⟩ =
      (⟨200, RespBody.empty⟩, ⟨[], [], [], 1, 1⟩, []) ∧
    handler ⟨Method.GET, some "2026-01", none⟩
        ⟨false, [], FetchOutcome.success none none, "t"⟩ ⟨[], [], [], 1, 1⟩ =
      (⟨405, RespBody.errorMsg "Método no permitido"⟩, ⟨[], [], [], 1, 1⟩,
       []) ∧
    handler ⟨Method.POST, none, none⟩
        ⟨false, [], FetchOutcome.success none none, "t"⟩ ⟨[], [], [], 1, 1⟩ =
      (⟨400, RespBody.errorMsg badPeriodoMsg⟩, ⟨[], [], [], 1, 1⟩, []) ∧
    handler ⟨Method.POST, some "2026-1", none⟩
        ⟨false, [], FetchOutcome.success none none, "t"⟩ ⟨[], [], [], 1, 1⟩ =
      (⟨400, RespBody.errorMsg badPeriodoMsg⟩, ⟨[], [], [], 1, 1⟩, []) ∧
    (handler ⟨Method.POST, some "2026-01", none⟩
        ⟨false, [], FetchOutcome.success none none, "t"⟩
        ⟨[], [], [], 1, 1⟩).2.2 =
      [Action.rateLookup,
       Action.remoteFetch (("2026-01".splitOn "-").getD 1 "")
         (("2026-01".splitOn "-").headD "")] := by
  refine ⟨?_, ?_, ?_, ?_, ?_⟩
  · exact (spec_C5_validation_before_effects ⟨Method.OPTIONS, none, none⟩
      ⟨false, [], FetchOutcome.success none none, "t"⟩ ⟨[], [], [], 1, 1⟩).1
      rfl
  · exact (spec_C5_validation_before_effects
      ⟨Method.GET, some "2026-01", none⟩
      ⟨false, [], FetchOutcome.success none none, "t"⟩ ⟨[], [], [], 1, 1⟩).2.1
      (by decide) (by decide)
  · exact (spec_C5_validation_before_effects ⟨Method.POST, none, none⟩
      ⟨false, [], FetchOutcome.success none none, "t"⟩
      ⟨[], [], [], 1, 1⟩).2.2.1 rfl rfl
  · exact (spec_C5_validation_before_effects
      ⟨Method.POST, some "2026-1", none⟩
      ⟨false, [], FetchOutcome.success none none, "t"⟩
      ⟨[], [], [], 1, 1⟩).2.2.2.1 "2026-1" rfl rfl (by decide)
  · exact (spec_C5_validation_before_effects
      ⟨Method.POST, some "2026-01", none⟩
      ⟨false, [], FetchOutcome.success none none, "t"⟩
      ⟨[], [], [], 1, 1⟩).2.2.2.2 "2026-01" rfl rfl (by decide)

/-- C7: when the sales array from SimpleAPI is empty, no
`facturas_emitidas` audit row is written, the invoice table for emitidas is
untouched, the response reports the emitidas branch as total 0, nuevas 0,
actualizadas 0 with empty errores, and the purchases branch runs exactly as
the reconciliation of the purchases array alone; symmetrically for an empty
purchases array. -/
theorem spec_C7_empty_branch_skips_audit (req : Request) (env : Env)
    (db : DBState) (p : String)
    (hm : req.method = Method.POST) (hp : req.periodo = some p)
    (hv : matchesPeriodo p = true) :
    (∀ compras : List (Doc × DbEvent),
      env.fetch = FetchOutcome.success (some []) (some compras) →
      handler req env db =
        (let uf := getUFActual env.ufLookupFails env.ufRows
         let pr := procesarFacturasRecibidas compras uf env.now
           db.facturas_recibidas db.nextRecibidaId
         (⟨200, RespBody.summary p uf ⟨0, 0, 0, []⟩
             ⟨compras.length, pr.1.nuevos, pr.1.actualizados, pr.1.errores⟩
             ("Sincronización completada: " ++ toString pr.1.nuevos ++
               " nuevas, " ++ toString pr.1.actualizados ++
               " actualizadas")⟩,
          ⟨db.facturas_emitidas, pr.2.1,
           db.sii_sync_log ++
             (if compras.length > 0 then
               [registrarSync "facturas_recibidas" p pr.1 req.userEmail]
             else []),
           db.nextEmitidaId, pr.2.2⟩,
          [Action.rateLookup,
           Action.remoteFetch ((p.splitOn "-").getD 1 "")
             ((p.splitOn "-").headD "")])) ∧
      ((handler req env db).2.1.sii_sync_log.filter
          (fun l => l.tipo_sync == "facturas_emitidas")) =
        (db.sii_sync_log.filter
          (fun l => l.tipo_sync == "facturas_emitidas"))) ∧
    (∀ ventas : List (Doc × DbEvent),
      env.fetch = FetchOutcome.success (some ventas) (some []) →
      handler req env db =
        (let uf := getUFActual env.ufLookupFails env.ufRows
         let pe := procesarFacturasEmitidas ventas uf env.now
           db.facturas_emitidas db.nextEmitidaId
         (⟨200, RespBody.summary p uf
             ⟨ventas.length, pe.1.nuevos, pe.1.actualizados, pe.1.errores⟩
             ⟨0, 0, 0, []⟩
             ("Sincronización completada: " ++ toString pe.1.nuevos ++
               " nuevas, " ++ toString pe.1.actualizados ++
               " actualizadas")⟩,
          ⟨pe.2.1, db.facturas_recibidas,
           db.sii_sync_log ++
             (if ventas.length > 0 then
               [registrarSync "facturas_emitidas" p pe.1 req.userEmail]
             else []),
           pe.2.2, db.nextRecibidaId⟩,
          [Action.rateLookup,
           Action.remoteFetch ((p.splitOn "-").getD 1 "")
             ((p.splitOn "-").headD "")])) ∧
      ((handler req env db).2.1.sii_sync_log.filter
          (fun l => l.tipo_sync == "facturas_recibidas")) =
        (db.sii_sync_log.filter
          (fun l => l.tipo_sync == "facturas_recibidas"))) := by
  constructor
  · intro compras hf
    cases compras with
    | nil =>
      constructor
      · simp [handler, hm, hp, hv, hf, consultarRCV, procesarRecibidas_nil]
      · simp [handler, hm, hp, hv, hf, consultarRCV]
    | cons c cs =>
      constructor
      · simp [handler, hm, hp, hv, hf, consultarRCV]
      · simp [handler, hm, hp, hv, hf, consultarRCV, registrarSync]
  · intro ventas hf
    cases ventas with
    | nil =>
      constructor
      · simp [handler, hm, hp, hv, hf, consultarRCV, procesarEmitidas_nil]
      · simp [handler, hm, hp, hv, hf, consultarRCV]
    | cons v vs =>
      constructor
      · simp [handler, hm, hp, hv, hf, consultarRCV]
      · simp [handler, hm, hp, hv, hf, consultarRCV, registrarSync]

/-- Witness for C7: period 2026-01 with both remote arrays empty, checked
through each of the two branches of the claim. -/
theorem spec_C7_witness :
    (handler ⟨Method.POST, some "2026-01", none⟩
        ⟨false, [], FetchOutcome.success (some []) (some []), "t"⟩
        ⟨[], [], [], 1, 1⟩ =
      (let uf := getUFActual false []
       let pr := procesarFacturasRecibidas [] uf "t" [] 1
       (⟨200, RespBody.summary "2026-01" uf ⟨0, 0, 0, []⟩
           ⟨(([] : List (Doc × DbEvent))).length, pr.1.nuevos,
            pr.1.actualizados, pr.1.errores⟩
           ("Sincronización completada: " ++ toString pr.1.nuevos ++
             " nuevas, " ++ toString pr.1.actualizados ++ " actualizadas")⟩,
        ⟨[], pr.2.1,
         [] ++
           (if (([] : List (Doc × DbEvent))).length > 0 then
             [registrarSync "facturas_recibidas" "2026-01" pr.1 none]
           else []),
         1, pr.2.2⟩,
        [Action.rateLookup,
         Action.remoteFetch (("2026-01".splitOn "-").getD 1 "")
           (("2026-01".splitOn "-").headD "")]))) ∧
    ((handler ⟨Method.POST, some "2026-01", none⟩
        ⟨false, [], FetchOutcome.success (some []) (some []), "t"⟩
        ⟨[], [], [], 1, 1⟩).2.1.sii_sync_log.filter
        (fun l => l.tipo_sync == "facturas_emitidas")) =
      (([] : List SyncLogRow).filter
        (fun l => l.tipo_sync == "facturas_emitidas")) := by
  exact (spec_C7_empty_branch_skips_audit ⟨Method.POST, some "2026-01", none⟩
    ⟨false, [], FetchOutcome.success (some []) (some []), "t"⟩
    ⟨[], [], [], 1, 1⟩ "2026-01" rfl rfl (by decide)).1 [] rfl

/-- Witness for C6 at a concrete document and rate. -/
theorem spec_C6_witness :
    (38000 : ℚ) ≠ 0 ∧
      (mapEmitida exDoc1 38000 "2026-02-01T00:00:00Z" 1).monto_uf =
        (round (exDoc1.montoTotal / 38000 * 100) : ℤ) / 100 :=
  ⟨by norm_num,
   (spec_C6_monto_uf_rounding exDoc1 38000 "2026-02-01T00:00:00Z" 1
     (by norm_num)).1⟩

end SimpleRCV
